import Mathlib

/-!
Verification development for the Echo repository (an unattended Google Meet
agent with audio capture).  The definitions below are a shallow embedding of
`src/audio_recorder.py` and `src/meet_bot.py`: pure Lean functions mirror the
Python methods, with the external collaborators (PyAudio device/stream,
Selenium driver) passed in as explicit data.  Machine integers are modelled as
`Nat`/`Int`; Python floats that only ever hold sample rates and wall-clock
times are modelled as `ℚ`; fallible collaborator calls are `Except Unit`
values.  Exceptions that the Python code catches locally are modelled by the
corresponding `Option`/branch structure of the Lean functions.
-/

/-! ## String helpers

Python's `needle in haystack` substring test and `str.lower()`.  Lean's
built-in `String.toLower` does not reduce in the kernel, so we use an
explicit character-list implementation (ASCII-faithful, which covers every
phrase the source matches against). -/

/-- Lowercase a string character by character (model of Python `str.lower()`
for the ASCII phrases used by the source). -/
def lowerStr (s : String) : String := ⟨s.data.map Char.toLower⟩

/-- Substring test on character lists: Python `needle in hay`. -/
def listIn (needle : List Char) : List Char → Bool
  | [] => needle.isEmpty
  | c :: rest => needle.isPrefixOf (c :: rest) || listIn needle rest

/-- Substring test on strings: Python `needle in hay`. -/
def strIn (needle hay : String) : Bool := listIn needle.data hay.data

/-- Python `int(q)`: truncation of a rational toward zero (`num.tdiv den`). -/
def pyInt (q : ℚ) : ℤ := Int.tdiv q.num (q.den : ℤ)

/-! ## Timestamps and filenames

`audio_recorder.py` lines 51-55: `get_recording_filename` formats
`datetime.datetime.now()` with `strftime("%Y%m%d_%H%M%S")` — the microsecond
field of the datetime is discarded by the format string. -/

/-- A `datetime.datetime` value: calendar fields down to microseconds. -/
structure PyDateTime where
  year : Nat
  month : Nat
  day : Nat
  hour : Nat
  minute : Nat
  second : Nat
  microsecond : Nat
deriving DecidableEq, Repr

/-- Character list produced by `strftime("%Y%m%d_%H%M%S")`: four zero-padded
year digits, then two digits for each of month, day, hour, minute, second.
Faithful for the datetime validity ranges (1000 ≤ year ≤ 9999 etc.); the
`microsecond` field does not appear. -/
def ts_chars (t : PyDateTime) : List Char :=
  [Nat.digitChar (t.year / 1000 % 10), Nat.digitChar (t.year / 100 % 10),
   Nat.digitChar (t.year / 10 % 10), Nat.digitChar (t.year % 10),
   Nat.digitChar (t.month / 10 % 10), Nat.digitChar (t.month % 10),
   Nat.digitChar (t.day / 10 % 10), Nat.digitChar (t.day % 10),
   '_',
   Nat.digitChar (t.hour / 10 % 10), Nat.digitChar (t.hour % 10),
   Nat.digitChar (t.minute / 10 % 10), Nat.digitChar (t.minute % 10),
   Nat.digitChar (t.second / 10 % 10), Nat.digitChar (t.second % 10)]

/-- The formatted timestamp string `strftime("%Y%m%d_%H%M%S")`. -/
def strftime_ts (t : PyDateTime) : String := ⟨ts_chars t⟩

/-- Validity ranges guaranteed by `datetime.datetime` (restricted to
four-digit years, where `%Y` is reliably zero-padded to width 4). -/
def validTs (t : PyDateTime) : Prop :=
  1000 ≤ t.year ∧ t.year ≤ 9999 ∧ 1 ≤ t.month ∧ t.month ≤ 12 ∧
  1 ≤ t.day ∧ t.day ≤ 31 ∧ t.hour ≤ 23 ∧ t.minute ≤ 59 ∧ t.second ≤ 59

instance (t : PyDateTime) : Decidable (validTs t) := by
  unfold validTs; infer_instance

/-- The year-through-second projection of a datetime: exactly the information
that survives `strftime("%Y%m%d_%H%M%S")`. -/
def secondKey (t : PyDateTime) : Nat × Nat × Nat × Nat × Nat × Nat :=
  (t.year, t.month, t.day, t.hour, t.minute, t.second)

/-- `AudioRecorder.get_recording_filename` (audio_recorder.py lines 51-55):
`os.path.join(self.recordings_folder, f"meeting_recording_{timestamp}.wav")`
with `timestamp = datetime.datetime.now().strftime("%Y%m%d_%H%M%S")`. -/
def get_recording_filename (folder : String) (now : PyDateTime) : String :=
  folder ++ "/" ++ ("meeting_recording_" ++ strftime_ts now ++ ".wav")

/-! ## The audio recorder state (audio_recorder.py) -/

/-- PyAudio's `paInt16` format constant. -/
def paInt16 : Nat := 8

/-- `pyaudio.PyAudio.get_sample_size`: bytes per sample for each PortAudio
sample format constant (paFloat32=1 ↦ 4, paInt32=2 ↦ 4, paInt24=4 ↦ 3,
paInt16=8 ↦ 2, paInt8=16 ↦ 1, paUInt8=32 ↦ 1). -/
def get_sample_size (format : Nat) : Nat :=
  if format = 1 then 4
  else if format = 2 then 4
  else if format = 4 then 3
  else if format = 8 then 2
  else if format = 16 then 1
  else if format = 32 then 1
  else 0

/-- Device info dictionary returned by
`pyaudio.PyAudio.get_default_input_device_info()`: the fields the source
reads.  `defaultSampleRate` is a Python float, modelled as `ℚ`. -/
structure DeviceInfo where
  index : Nat
  maxInputChannels : Nat
  defaultSampleRate : ℚ
deriving DecidableEq

/-- The open capture stream: the arguments `self.audio.open(...)` was called
with (audio_recorder.py lines 80-87).  `rate` records
`int(min(self.rate, defaultSampleRate))`, hence `ℤ`. -/
structure StreamConfig where
  format : Nat
  channels : Nat
  rate : ℤ
  frames_per_buffer : Nat
  input_device_index : Nat
deriving DecidableEq

/-- The persisted PCM (WAV) container written by `stop_recording`
(audio_recorder.py lines 224-228): header fields set via `setnchannels`,
`setsampwidth`, `setframerate`, and the payload written by
`writeframes(b''.join(self.frames))`.  Bytes are modelled as `Nat`. -/
structure WavFile where
  nchannels : Nat
  sampwidth : Nat
  framerate : Nat
  payload : List Nat
deriving DecidableEq

/-- The mutable attributes of `AudioRecorder` (audio_recorder.py `__init__`,
lines 15-30).  `audio_thread` records whether a capture thread handle is
present; wall-clock instants are `ℚ` seconds. -/
structure RecorderState where
  recordings_folder : String
  is_recording : Bool
  audio_thread : Bool
  audio_stream : Option StreamConfig
  audio_format : Nat
  channels : Nat
  rate : Nat
  chunk : Nat
  frames : List (List Nat)
  recording_start_time : Option ℚ
  recording_filename : Option String
  total_frames_recorded : Nat
  last_audio_level_log : ℚ
  recording_duration : ℚ

/-- `AudioRecorder.__init__` (audio_recorder.py lines 15-30): configured
format paInt16, 2 channels, 44100 Hz, chunk 1024, empty buffer, no active
recording. -/
def initState (folder : String) : RecorderState :=
  { recordings_folder := folder
    is_recording := false
    audio_thread := false
    audio_stream := none
    audio_format := paInt16
    channels := 2
    rate := 44100
    chunk := 1024
    frames := []
    recording_start_time := none
    recording_filename := none
    total_frames_recorded := 0
    last_audio_level_log := 0
    recording_duration := 0 }

/-- The external inputs consumed by one `start_recording` call: the default
input device report (`none` models `get_default_input_device_info` raising),
whether `audio.open` succeeds, the current wall clock, and the current
datetime used for the filename. -/
structure StartEnv where
  device : Option DeviceInfo
  open_ok : Bool
  now : ℚ
  ts : PyDateTime

/-- `AudioRecorder.start_recording` (audio_recorder.py lines 57-112).
If a recording is already in progress it returns `False` without touching
state (lines 59-61).  Otherwise it queries the default device, assigns the
recording filename (line 76), opens the stream with
`channels = min(self.channels, maxInputChannels)` and
`rate = int(min(self.rate, defaultSampleRate))` (lines 80-87), then sets the
flags, clears the buffer and counters, records the start time, and launches
the capture thread (lines 89-98).  Any exception (no device / open failure)
is caught and `False` is returned (lines 106-112); an open failure happens
after the filename assignment, which therefore persists. -/
def start_recording (s : RecorderState) (env : StartEnv) : Bool × RecorderState :=
  if s.is_recording then (false, s)
  else
    match env.device with
    | none => (false, s)
    | some dev =>
      let s1 := { s with
        recording_filename := some (get_recording_filename s.recordings_folder env.ts) }
      if env.open_ok then
        let st : StreamConfig :=
          { format := s.audio_format
            channels := min s.channels dev.maxInputChannels
            rate := pyInt (min (s.rate : ℚ) dev.defaultSampleRate)
            frames_per_buffer := s.chunk
            input_device_index := dev.index }
        (true,
          { s1 with
            audio_stream := some st
            is_recording := true
            frames := []
            recording_start_time := some env.now
            total_frames_recorded := 0
            last_audio_level_log := env.now
            audio_thread := true })
      else (false, s1)

/-- One iteration of the capture loop body (audio_recorder.py lines 119-133):
on a successful `stream.read` the block is appended to `self.frames` and the
frame counter incremented; a read error is logged and the loop continues
after a short sleep, leaving the state unchanged. -/
def record_step (s : RecorderState) (r : Except Unit (List Nat)) : RecorderState :=
  match r with
  | .ok data =>
      { s with frames := s.frames ++ [data]
               total_frames_recorded := s.total_frames_recorded + 1 }
  | .error _ => s

/-- `AudioRecorder._record_audio` (audio_recorder.py lines 114-138): the
capture thread folds the sequence of stream-read outcomes observed while
`is_recording` stays true over `record_step`.  The periodic statistics
logging (lines 125-129) reads but never mutates the buffer. -/
def record_audio (s : RecorderState) (reads : List (Except Unit (List Nat))) :
    RecorderState :=
  reads.foldl record_step s

/-- `AudioRecorder.stop_recording` (audio_recorder.py lines 181-260).
Returns `(returned filename, file written, new state)`.  If no recording is
in progress, returns `None` with no side effects (lines 183-185).  Otherwise
it clears `is_recording`, records the final duration, joins the thread and
closes the stream (lines 192-217); if the buffer is non-empty it writes a WAV
container with header channels/sample-width/rate taken from the configured
`self.channels`, `get_sample_size(self.audio_format)` and `self.rate`
(lines 224-227) and payload `b''.join(self.frames)` (line 228), returning
`self.recording_filename`; an empty buffer yields `None` with no file
(lines 250-252).  The `finally` block always clears the buffer, the frame
counter and the start time (lines 257-260). -/
def stop_recording (s : RecorderState) (now : ℚ) :
    Option String × Option WavFile × RecorderState :=
  if s.is_recording = false then (none, none, s)
  else
    let dur : ℚ :=
      match s.recording_start_time with
      | some t0 => now - t0
      | none => s.recording_duration
    let s1 : RecorderState :=
      { s with is_recording := false, recording_duration := dur,
               audio_stream := none, frames := [],
               total_frames_recorded := 0, recording_start_time := none }
    if s.frames.isEmpty then (none, none, s1)
    else
      let wf : WavFile :=
        { nchannels := s.channels
          sampwidth := get_sample_size s.audio_format
          framerate := s.rate
          payload := s.frames.flatten }
      (s.recording_filename, some wf, s1)

/-! ## The meet bot (meet_bot.py) -/

/-- Log severity of a logger call. -/
inductive LogLevel
  | debug
  | info
  | warning
  | error
deriving DecidableEq, Repr

/-- One emitted log line. -/
structure LogEntry where
  level : LogLevel
  msg : String
deriving DecidableEq, Repr

/-- A DOM element as observed through the driver: visibility, enabledness,
its `aria-label` attribute (empty string models a missing attribute, per the
source's `or ""`), and whether a native click / script click on it succeeds. -/
structure Element where
  displayed : Bool
  enabled : Bool
  aria_label : String
  click_ok : Bool
  script_ok : Bool
deriving DecidableEq

/-- The CSS selectors the bot queries, as opaque keys (selector semantics
live in the browser, outside the core).  Constructors are listed in source
order:
`meetLeaveCall`..`meetCamAria` are the four `meeting_indicators` of
`check_meeting_status` (meet_bot.py lines 394-399);
`micTurnOff`..`micRoleButton` are the five `mic_selectors` and
`camTurnOff`..`camRoleButton` the four `cam_selectors` of
`ensure_muted_and_camera_off` (lines 202-218);
`verifyMic`/`verifyCam` are the two queried by `verify_media_state`
(lines 277, 287). -/
inductive Sel
  | meetLeaveCall
  | meetTitle
  | meetMicAria
  | meetCamAria
  | micTurnOff
  | micOnLabel
  | micMuteLabel
  | micJsname
  | micRoleButton
  | camTurnOff
  | camOnLabel
  | camJsname
  | camRoleButton
  | verifyMic
  | verifyCam
deriving DecidableEq

/-- A snapshot of the rendered page: the element list each selector resolves
to (`driver.find_elements`) and the page source text. -/
structure Page where
  elems : Sel → List Element
  page_source : String

/-- `driver.find_element`: the first element matching the selector, if any. -/
def find_element (p : Page) (sel : Sel) : Option Element := (p.elems sel).head?

/-- The `meeting_indicators` selector list of `check_meeting_status`
(meet_bot.py lines 394-399). -/
def meeting_indicators : List Sel :=
  [.meetLeaveCall, .meetTitle, .meetMicAria, .meetCamAria]

/-- One indicator probe of `check_meeting_status` (meet_bot.py lines 401-408):
`find_element` succeeds (else `NoSuchElementException` is caught and the loop
continues) and the found element is displayed. -/
def indicator_visible (p : Page) (sel : Sel) : Bool :=
  match find_element p sel with
  | some e => e.displayed
  | none => false

/-- The `waiting_phrases` list (meet_bot.py line 412). -/
def waiting_phrases : List String :=
  ["waiting for the host", "ask to join", "waiting for someone to let you in"]

/-- The `ended_phrases` list (meet_bot.py line 418). -/
def ended_phrases : List String :=
  ["meeting ended", "you left the meeting", "meeting has ended"]

/-- `AnonymousGoogleMeetBot.check_meeting_status` (meet_bot.py lines 389-428)
for a healthy driver: if any structural in-call indicator is present and
displayed, return "joined"; else lowercase the page source and return
"waiting" on a waiting-phrase match, then "ended" on an ended-phrase match,
else "unknown".  (The outer `except` branch returning "error" fires only when
the driver itself fails, which this page-snapshot model excludes.) -/
def check_meeting_status (p : Page) : String :=
  if meeting_indicators.any (indicator_visible p) then "joined"
  else
    let src := lowerStr p.page_source
    if waiting_phrases.any (fun ph => strIn ph src) then "waiting"
    else if ended_phrases.any (fun ph => strIn ph src) then "ended"
    else "unknown"

/-- The driver observations consumed by one `detect_disconnection` call:
reading `current_url` or `page_source` may raise. -/
structure Driver where
  current_url : Except Unit String
  page_source : Except Unit String

/-- The `disconnect_phrases` list (meet_bot.py line 440). -/
def disconnect_phrases : List String :=
  ["you left the meeting", "you were removed", "meeting ended",
   "meeting has ended"]

/-- `AnonymousGoogleMeetBot.detect_disconnection` (meet_bot.py lines
430-451): true when the current URL no longer contains "meet.google.com",
or when the lowercased page source contains any disconnect phrase; any
exception while reading the driver is caught and yields true (lines
449-451).  The function consults nothing but the given driver snapshot. -/
def detect_disconnection (d : Driver) : Bool :=
  match d.current_url with
  | .error _ => true
  | .ok url =>
    if strIn "meet.google.com" url = false then true
    else
      match d.page_source with
      | .error _ => true
      | .ok src => disconnect_phrases.any (fun ph => strIn ph (lowerStr src))

/-- The `restriction_phrases` list of `try_meeting_url_variations`
(meet_bot.py lines 171-177); `\x27` is the ASCII apostrophe. -/
def restriction_phrases : List String :=
  ["can\x27t create a meeting", "contact your system administrator",
   "you can\x27t create meetings", "administrator for more information",
   "your organization doesn\x27t allow"]

/-- Restriction scan of one navigated page (meet_bot.py line 179):
`any(phrase in page_source for phrase in restriction_phrases)` on the
lowercased source. -/
def has_restriction (src : String) : Bool :=
  restriction_phrases.any (fun ph => strIn ph (lowerStr src))

/-- Whether a navigation outcome keeps the loop going: an exception (line
187-189) or a detected restriction (lines 184-185). -/
def bad_outcome : Except Unit String → Bool
  | .error _ => true
  | .ok src => has_restriction src

/-- Outcome of `try_meeting_url_variations`: the returned boolean, how many
variants were navigated, and whether the final all-restricted warning
(meet_bot.py line 191) was logged. -/
structure TryResult where
  result : Bool
  tried : Nat
  degraded : Bool
deriving DecidableEq, Repr

/-- The variant loop of `try_meeting_url_variations` (meet_bot.py lines
163-192) over the per-variant outcomes (navigation error, or the page source
obtained): an exception logs and continues; a restricted page continues; a
clean page returns `True` immediately; exhausting all variants logs the
"continuing anyway" warning and returns `True`. -/
def try_vars_loop : List (Except Unit String) → TryResult
  | [] => ⟨true, 0, true⟩
  | .error _ :: rest =>
      let r := try_vars_loop rest
      ⟨r.result, r.tried + 1, r.degraded⟩
  | .ok src :: rest =>
      if has_restriction src then
        let r := try_vars_loop rest
        ⟨r.result, r.tried + 1, r.degraded⟩
      else ⟨true, 1, false⟩

/-- Meeting-id extraction (meet_bot.py line 151):
`self.meeting_link.split('/')[-1].split('?')[0]`. -/
def meeting_id (link : String) : String :=
  (((link.splitOn "/").getLastD "").splitOn "?").headD ""

/-- The ordered URL-variant list (meet_bot.py lines 153-161). -/
def url_variations (link : String) : List String :=
  let mid := meeting_id link
  [link,
   "https://meet.google.com/" ++ mid,
   "https://meet.google.com/" ++ mid ++ "?pli=1",
   "https://meet.google.com/" ++ mid ++ "?hl=en",
   "https://meet.google.com/" ++ mid ++ "?authuser=0",
   "https://meet.google.com/" ++ mid ++ "?usp=meet_web",
   "https://meet.google.com/" ++ mid ++ "?continue=https://meet.google.com"]

/-- `AnonymousGoogleMeetBot.try_meeting_url_variations` (meet_bot.py lines
147-192), with `nav` giving the navigation outcome of each URL. -/
def try_meeting_url_variations (nav : String → Except Unit String)
    (link : String) : TryResult :=
  try_vars_loop ((url_variations link).map nav)

/-- The `mic_selectors` list (meet_bot.py lines 202-208). -/
def mic_selectors : List Sel :=
  [.micTurnOff, .micOnLabel, .micMuteLabel, .micJsname, .micRoleButton]

/-- The `cam_selectors` list (meet_bot.py lines 213-218). -/
def cam_selectors : List Sel :=
  [.camTurnOff, .camOnLabel, .camJsname, .camRoleButton]

/-- Element scan for one selector inside `_toggle_media_button` (meet_bot.py
lines 236-266): walk the matched elements; for a displayed and enabled
element, classify its lowercased `aria-label` — `needs_toggle` when it says
"turn off" of this device, or names the device without "off" while the
desired state is "off"; otherwise `already_correct` when the label contains
the desired state.  On `needs_toggle`, a native click (falling back to a
script click) sets `toggled`; if both clicks raise, the per-selector
`except ... continue` abandons the rest of this selector's elements with
`toggled` still false.  Returns whether this selector set `toggled`. -/
def selector_toggles (device desired : String) : List Element → Bool
  | [] => false
  | e :: rest =>
    if e.displayed && e.enabled then
      let label := lowerStr e.aria_label
      let needs := (strIn "turn off" label && strIn device label) ||
                   (strIn device label && !(strIn "off" label) && desired == "off")
      let correct := strIn desired label
      if needs then
        if e.click_ok then true
        else if e.script_ok then true
        else false
      else if correct then true
      else selector_toggles device desired rest
    else selector_toggles device desired rest

/-- One attempt round of `_toggle_media_button` (meet_bot.py lines 236-266):
every selector in the list is scanned (the inner `break` leaves only the
element loop), and the round succeeds when any selector toggles. -/
def round_toggles (selectors : List Sel) (device desired : String)
    (p : Page) : Bool :=
  selectors.any (fun sel => selector_toggles device desired (p.elems sel))

/-- Result of a `_toggle_media_button` call: how many attempt rounds ran,
whether a toggle (or already-correct observation) was achieved, and the log
lines emitted. -/
structure ToggleResult where
  attempts : Nat
  toggled : Bool
  log : List LogEntry
deriving DecidableEq, Repr

/-- The `while not toggled and attempts < 5` loop of `_toggle_media_button`
(meet_bot.py lines 232-270), with `pages n` the page snapshot seen by attempt
`n+1`; each attempt first logs the info line "... toggle attempt" (line
234). -/
def toggle_go (selectors : List Sel) (device desired : String)
    (pages : Nat → Page) : Nat → Nat → List LogEntry → ToggleResult
  | 0, attempts, log => ⟨attempts, false, log⟩
  | fuel + 1, attempts, log =>
    let a := attempts + 1
    let log1 := log ++ [⟨.info, device ++ " toggle attempt"⟩]
    if round_toggles selectors device desired (pages attempts) then
      ⟨a, true, log1⟩
    else toggle_go selectors device desired pages fuel a log1

/-- `AnonymousGoogleMeetBot._toggle_media_button` (meet_bot.py lines
227-270): up to 5 attempt rounds; every exception inside is caught by the
per-selector handler, so the call always returns (no exception escapes), and
nothing is logged after the loop exhausts. -/
def toggle_media_button (selectors : List Sel) (device desired : String)
    (pages : Nat → Page) : ToggleResult :=
  toggle_go selectors device desired pages 5 0 []

/-- One device check of `verify_media_state` (meet_bot.py lines 277-295):
find the first displayed element for the verification selector; log info if
its lowercased label contains one of the "off" words, else log the
state-unclear warning; no displayed element logs nothing. -/
def verify_scan (okWords : List String) (infoMsg warnMsg : String) :
    List Element → List LogEntry
  | [] => []
  | e :: rest =>
    if e.displayed then
      if okWords.any (fun w => strIn w (lowerStr e.aria_label)) then
        [⟨.info, infoMsg⟩]
      else [⟨.warning, warnMsg⟩]
    else verify_scan okWords infoMsg warnMsg rest

/-- `AnonymousGoogleMeetBot.verify_media_state` (meet_bot.py lines 272-298):
re-read the mic and camera labels and log, without altering any outcome. -/
def verify_media_state (p : Page) : List LogEntry :=
  verify_scan ["off", "muted"] "mic confirmed off" "mic state unclear"
      (p.elems .verifyMic) ++
  verify_scan ["off"] "camera confirmed off" "camera state unclear"
      (p.elems .verifyCam)

/-- Result of `ensure_muted_and_camera_off`: both toggle outcomes and the
combined log. -/
structure EnforceResult where
  mic : ToggleResult
  cam : ToggleResult
  log : List LogEntry
deriving DecidableEq, Repr

/-- `AnonymousGoogleMeetBot.ensure_muted_and_camera_off` (meet_bot.py lines
194-225): toggle the microphone off, toggle the camera off, then run the
verification pass (on the page as it stands afterwards, here `pages 0`). -/
def ensure_muted_and_camera_off (pages : Nat → Page) : EnforceResult :=
  let m := toggle_media_button mic_selectors "microphone" "off" pages
  let c := toggle_media_button cam_selectors "camera" "off" pages
  ⟨m, c, m.log ++ c.log ++ verify_media_state (pages 0)⟩

/-- Decision taken by one iteration of the monitoring loop: whether
`stop_recording` is called (and with which reason), whether the loop exits,
and whether recording is started. -/
structure StepResult where
  stop_reason : Option String
  exits : Bool
  starts_recording : Bool
deriving DecidableEq, Repr

/-- The per-iteration decision logic of `stay_in_meeting` (meet_bot.py lines
545-569): on a detected disconnection, stop any active recording with reason
"Disconnection detected" and break; else on status "ended", stop with
"Meeting ended" and break; else on "joined" with recording enabled and not
yet started, start recording; otherwise continue. -/
def stay_step (disconnected : Bool) (status : String)
    (recording_started enable_recording : Bool) : StepResult :=
  if disconnected then
    ⟨if recording_started && enable_recording then some "Disconnection detected"
      else none, true, false⟩
  else if status == "ended" then
    ⟨if recording_started && enable_recording then some "Meeting ended"
      else none, true, false⟩
  else if status == "joined" && !recording_started && enable_recording then
    ⟨none, false, true⟩
  else ⟨none, false, false⟩

/-! ## Helper lemmas about the capture loop -/

/-- `record_step` never touches the recorder's configuration, flags or
filename. -/
theorem record_step_preserves (s : RecorderState) (r : Except Unit (List Nat)) :
    (record_step s r).is_recording = s.is_recording ∧
    (record_step s r).recording_filename = s.recording_filename ∧
    (record_step s r).channels = s.channels ∧
    (record_step s r).rate = s.rate ∧
    (record_step s r).audio_format = s.audio_format := by
  cases r <;> simp [record_step]

/-- The capture loop never touches the recorder's configuration, flags or
filename. -/
theorem record_audio_preserves (reads : List (Except Unit (List Nat))) :
    ∀ s : RecorderState,
    (record_audio s reads).is_recording = s.is_recording ∧
    (record_audio s reads).recording_filename = s.recording_filename ∧
    (record_audio s reads).channels = s.channels ∧
    (record_audio s reads).rate = s.rate ∧
    (record_audio s reads).audio_format = s.audio_format := by
  induction reads with
  | nil => intro s; exact ⟨rfl, rfl, rfl, rfl, rfl⟩
  | cons r rest ih =>
    intro s
    have h1 := record_step_preserves s r
    have h2 := ih (record_step s r)
    simpa [record_audio, List.foldl_cons, h1.1, h1.2.1, h1.2.2.1, h1.2.2.2.1,
      h1.2.2.2.2] using h2

/-- A run of the capture loop whose stream reads all succeed appends exactly
those blocks, in order, to the buffer. -/
theorem record_audio_frames (reads : List (List Nat)) :
    ∀ s : RecorderState,
    (record_audio s (reads.map Except.ok)).frames = s.frames ++ reads := by
  induction reads with
  | nil => intro s; simp [record_audio]
  | cons b rest ih =>
    intro s
    have := ih { s with frames := s.frames ++ [b],
                        total_frames_recorded := s.total_frames_recorded + 1 }
    simpa [record_audio, List.foldl_cons, record_step, List.append_assoc] using this

/-- Summing the lengths of blocks of one common length. -/
theorem sum_lengths_const {B : Nat} :
    ∀ (l : List (List Nat)), (∀ b ∈ l, b.length = B) →
    (l.map List.length).sum = l.length * B := by
  intro l
  induction l with
  | nil => intro _; simp
  | cons a t ih =>
    intro h
    have ha : a.length = B := h a (by simp)
    have ht := ih (fun b hb => h b (by simp [hb]))
    simp [List.map_cons, List.sum_cons, ha, ht, Nat.succ_mul, Nat.add_comm]

/-- `stop_recording` on an active recorder with a non-empty buffer: returns
the stored filename and writes the container with header fields taken from
the configured `channels`/`audio_format`/`rate` attributes and payload the
flattened buffer; buffer, counter and start time are cleared. -/
theorem stop_recording_spec (s : RecorderState) (now : ℚ)
    (hrec : s.is_recording = true) (hne : s.frames ≠ []) :
    stop_recording s now =
      (s.recording_filename,
       some { nchannels := s.channels,
              sampwidth := get_sample_size s.audio_format,
              framerate := s.rate,
              payload := s.frames.flatten },
       { s with is_recording := false,
                recording_duration :=
                  match s.recording_start_time with
                  | some t0 => now - t0
                  | none => s.recording_duration,
                audio_stream := none, frames := [],
                total_frames_recorded := 0,
                recording_start_time := none }) := by
  have hemp : s.frames.isEmpty = false := by
    cases h : s.frames with
    | nil => exact absurd h hne
    | cons a t => rfl
  simp [stop_recording, hrec, hemp]

/-! ## Claims about the audio recorder -/

/-- C1: a capture session that appends N blocks of the fixed block size
(blockSize frames × channels samples × 2 bytes) persists, on stop, a PCM
container whose payload is the concatenation of the blocks in append order,
of total length N × blockSize × channels × 2 bytes. -/
theorem c1_stop_writes_concatenated_payload
    (s : RecorderState) (reads : List (List Nat)) (now : ℚ)
    (blockSize channels : Nat)
    (hrec : s.is_recording = true) (hbuf : s.frames = []) (hne : reads ≠ [])
    (hlen : ∀ b ∈ reads, b.length = blockSize * channels * 2) :
    ∃ wf : WavFile,
      (stop_recording (record_audio s (reads.map Except.ok)) now).2.1 = some wf ∧
      wf.payload = reads.flatten ∧
      wf.payload.length = reads.length * (blockSize * channels * 2) := by
  have hpres := record_audio_preserves (reads.map Except.ok) s
  have hfr : (record_audio s (reads.map Except.ok)).frames = reads := by
    rw [record_audio_frames, hbuf]; simp
  have hrec' : (record_audio s (reads.map Except.ok)).is_recording = true := by
    rw [hpres.1, hrec]
  have hne' : (record_audio s (reads.map Except.ok)).frames ≠ [] := by
    rw [hfr]; exact hne
  rw [stop_recording_spec _ now hrec' hne']
  refine ⟨_, rfl, ?_, ?_⟩
  · simp [hfr]
  · simp [hfr, List.length_flatten, sum_lengths_const reads hlen]

/-- Witness for C1 at a concrete two-block session. -/
theorem c1_stop_writes_concatenated_payload_witness :
    ∃ wf : WavFile,
      (stop_recording
        (record_audio { initState "recordings" with is_recording := true }
          ([[0, 1, 2, 3], [4, 5, 6, 7]].map Except.ok)) 0).2.1 = some wf ∧
      wf.payload = [[0, 1, 2, 3], [4, 5, 6, 7]].flatten ∧
      wf.payload.length = 2 * (1 * 2 * 2) :=
  c1_stop_writes_concatenated_payload
    { initState "recordings" with is_recording := true }
    [[0, 1, 2, 3], [4, 5, 6, 7]] 0 1 2 rfl rfl (by decide) (by decide)

/-- C2: `start_recording` on a recorder that is already recording returns
`False` and leaves the entire state untouched — the second session is
rejected, not queued. -/
theorem c2_start_while_active (s : RecorderState) (env : StartEnv)
    (h : s.is_recording = true) :
    start_recording s env = (false, s) := by
  simp [start_recording, h]

/-- Witness for C2 on a concrete active recorder. -/
theorem c2_start_while_active_witness :
    start_recording { initState "recordings" with is_recording := true }
      ⟨some ⟨0, 2, (44100 : ℚ)⟩, true, 0, ⟨2026, 10, 12, 9, 30, 0, 0⟩⟩ =
      (false, { initState "recordings" with is_recording := true }) :=
  c2_start_while_active _ _ rfl

/-- Casting a natural through `pyInt` is the identity: Python `int()` of an
integral value. -/
theorem pyInt_natCast (n : Nat) : pyInt (n : ℚ) = n := by
  simp [pyInt, Rat.num_natCast, Rat.den_natCast]

/-- `start_recording` on an idle recorder with an available device and a
successful stream open: returns `True` and the fully initialized state. -/
theorem start_recording_spec (s : RecorderState) (env : StartEnv)
    (dev : DeviceInfo) (hidle : s.is_recording = false)
    (hdev : env.device = some dev) (hopen : env.open_ok = true) :
    start_recording s env =
      (true,
       { s with
         recording_filename :=
           some (get_recording_filename s.recordings_folder env.ts)
         audio_stream := some
           { format := s.audio_format
             channels := min s.channels dev.maxInputChannels
             rate := pyInt (min (s.rate : ℚ) dev.defaultSampleRate)
             frames_per_buffer := s.chunk
             input_device_index := dev.index }
         is_recording := true
         frames := []
         recording_start_time := some env.now
         total_frames_recorded := 0
         last_audio_level_log := env.now
         audio_thread := true }) := by
  simp [start_recording, hidle, hdev, hopen]

/-- C3: a successful `start_recording` opens the stream with channel count
`min(configured, maxInputChannels)` and rate `min(configured, device default
sample rate)`; in particular configured 2 channels against a 1-channel device
negotiates 1 channel. -/
theorem c3_negotiated_minimum (s : RecorderState) (env : StartEnv)
    (dev : DeviceInfo) (dsr : Nat)
    (hidle : s.is_recording = false) (hdev : env.device = some dev)
    (hopen : env.open_ok = true) (hdsr : dev.defaultSampleRate = (dsr : ℚ)) :
    (start_recording s env).1 = true ∧
    ∃ st : StreamConfig,
      (start_recording s env).2.audio_stream = some st ∧
      st.channels = min s.channels dev.maxInputChannels ∧
      st.rate = (min s.rate dsr : ℕ) ∧
      (s.channels = 2 → dev.maxInputChannels = 1 → st.channels = 1) := by
  rw [start_recording_spec s env dev hidle hdev hopen]
  refine ⟨rfl, _, rfl, rfl, ?_, ?_⟩
  · rw [hdsr, ← Nat.cast_min, pyInt_natCast]
  · intro h2 h1
    simp [h2, h1]

/-- Witness for C3: configured 2 channels / 44100 Hz against a device
reporting 1 input channel and a 48000 Hz default rate. -/
theorem c3_negotiated_minimum_witness :
    (start_recording (initState "recordings")
        ⟨some ⟨3, 1, (48000 : ℚ)⟩, true, 0, ⟨2026, 10, 12, 9, 30, 0, 0⟩⟩).1
        = true ∧
    ∃ st : StreamConfig,
      (start_recording (initState "recordings")
        ⟨some ⟨3, 1, (48000 : ℚ)⟩, true, 0,
          ⟨2026, 10, 12, 9, 30, 0, 0⟩⟩).2.audio_stream = some st ∧
      st.channels = min 2 1 ∧
      st.rate = (min 44100 48000 : ℕ) ∧
      (2 = 2 → 1 = 1 → st.channels = 1) :=
  c3_negotiated_minimum (initState "recordings") _ ⟨3, 1, (48000 : ℚ)⟩ 48000
    rfl rfl rfl (by norm_num)

/-- `pyInt` of a nonnegative rational is its floor. -/
theorem pyInt_eq_floor (q : ℚ) (hq : 0 ≤ q) : pyInt q = ⌊q⌋ := by
  rw [pyInt, Rat.floor_def]
  exact Int.tdiv_eq_ediv (Rat.num_nonneg.mpr hq) (Int.natCast_nonneg _)

/-- Python `int()` of a nonnegative rational strictly below a natural stays
strictly below it. -/
theorem pyInt_lt_natCast (q : ℚ) (n : Nat) (hq : 0 ≤ q) (h : q < (n : ℚ)) :
    pyInt q < (n : ℤ) := by
  rw [pyInt_eq_floor q hq]
  exact Int.floor_lt.mpr (by exact_mod_cast h)

/-- C4: the persisted container's header channel count and sample rate come
from the configured attributes, not from the negotiated stream parameters —
for every capture session on a device advertising fewer input channels than
configured, or a (nonnegative) default sample rate below the configured
rate, the written header strictly overstates the corresponding stream
parameter, so it does not describe the captured payload's format. -/
theorem c4_header_ignores_negotiation (s : RecorderState) (env : StartEnv)
    (dev : DeviceInfo) (reads : List (List Nat)) (now : ℚ)
    (hidle : s.is_recording = false) (hdev : env.device = some dev)
    (hopen : env.open_ok = true) (hne : reads ≠ [])
    (hpos : 0 ≤ dev.defaultSampleRate)
    (hdef : dev.maxInputChannels < s.channels ∨
            dev.defaultSampleRate < (s.rate : ℚ)) :
    ∃ (st : StreamConfig) (wf : WavFile),
      (start_recording s env).2.audio_stream = some st ∧
      (stop_recording
        (record_audio (start_recording s env).2 (reads.map Except.ok))
        now).2.1 = some wf ∧
      wf.nchannels = s.channels ∧ wf.framerate = s.rate ∧
      (dev.maxInputChannels < s.channels → st.channels < wf.nchannels) ∧
      (dev.defaultSampleRate < (s.rate : ℚ) →
        st.rate < (wf.framerate : ℤ)) ∧
      (st.channels < wf.nchannels ∨ st.rate < (wf.framerate : ℤ)) := by
  rw [start_recording_spec s env dev hidle hdev hopen]
  set s1 : RecorderState :=
    { s with
      recording_filename :=
        some (get_recording_filename s.recordings_folder env.ts)
      audio_stream := some
        { format := s.audio_format
          channels := min s.channels dev.maxInputChannels
          rate := pyInt (min (s.rate : ℚ) dev.defaultSampleRate)
          frames_per_buffer := s.chunk
          input_device_index := dev.index }
      is_recording := true
      frames := []
      recording_start_time := some env.now
      total_frames_recorded := 0
      last_audio_level_log := env.now
      audio_thread := true } with hs1
  have hpres := record_audio_preserves (reads.map Except.ok) s1
  have hrec' : (record_audio s1 (reads.map Except.ok)).is_recording = true := by
    rw [hpres.1]
  have hfr : (record_audio s1 (reads.map Except.ok)).frames = reads := by
    rw [record_audio_frames]
    simp [hs1]
  have hne' : (record_audio s1 (reads.map Except.ok)).frames ≠ [] := by
    rw [hfr]; exact hne
  rw [stop_recording_spec _ now hrec' hne']
  have hchimp : dev.maxInputChannels < s.channels →
      min s.channels dev.maxInputChannels < s1.channels :=
    fun hch => Nat.lt_of_le_of_lt (Nat.min_le_right _ _) hch
  have hrimp : dev.defaultSampleRate < (s.rate : ℚ) →
      pyInt (min (s.rate : ℚ) dev.defaultSampleRate) < (s1.rate : ℤ) := by
    intro hr
    rw [min_eq_right (le_of_lt hr)]
    exact pyInt_lt_natCast _ _ hpos hr
  refine ⟨_, _, rfl, rfl, ?_, ?_, ?_, ?_, ?_⟩
  · rw [hpres.2.2.1]
  · rw [hpres.2.2.2.1]
  · intro hch
    rw [hpres.2.2.1]
    exact hchimp hch
  · intro hr
    rw [hpres.2.2.2.1]
    exact hrimp hr
  · rcases hdef with h | h
    · left
      rw [hpres.2.2.1]
      exact hchimp h
    · right
      rw [hpres.2.2.2.1]
      exact hrimp h

/-- Witness for C4, exercising both deficiency branches: a 1-channel device
at the configured 44100 Hz (header overstates the channel count), and a
stereo device advertising 22050 Hz (header overstates the sample rate). -/
theorem c4_header_ignores_negotiation_witness :
    (∃ (st : StreamConfig) (wf : WavFile),
      (start_recording (initState "recordings")
        ⟨some ⟨0, 1, (44100 : ℚ)⟩, true, 0,
          ⟨2026, 10, 12, 9, 30, 0, 0⟩⟩).2.audio_stream = some st ∧
      (stop_recording
        (record_audio
          (start_recording (initState "recordings")
            ⟨some ⟨0, 1, (44100 : ℚ)⟩, true, 0,
              ⟨2026, 10, 12, 9, 30, 0, 0⟩⟩).2
          ([[0, 1]].map Except.ok)) 0).2.1 = some wf ∧
      wf.nchannels = (initState "recordings").channels ∧
      wf.framerate = (initState "recordings").rate ∧
      (1 < (initState "recordings").channels → st.channels < wf.nchannels) ∧
      ((44100 : ℚ) < ((initState "recordings").rate : ℚ) →
        st.rate < (wf.framerate : ℤ)) ∧
      (st.channels < wf.nchannels ∨ st.rate < (wf.framerate : ℤ))) ∧
    (∃ (st : StreamConfig) (wf : WavFile),
      (start_recording (initState "recordings")
        ⟨some ⟨0, 2, (22050 : ℚ)⟩, true, 0,
          ⟨2026, 10, 12, 9, 30, 0, 0⟩⟩).2.audio_stream = some st ∧
      (stop_recording
        (record_audio
          (start_recording (initState "recordings")
            ⟨some ⟨0, 2, (22050 : ℚ)⟩, true, 0,
              ⟨2026, 10, 12, 9, 30, 0, 0⟩⟩).2
          ([[0, 1]].map Except.ok)) 0).2.1 = some wf ∧
      wf.nchannels = (initState "recordings").channels ∧
      wf.framerate = (initState "recordings").rate ∧
      (2 < (initState "recordings").channels → st.channels < wf.nchannels) ∧
      ((22050 : ℚ) < ((initState "recordings").rate : ℚ) →
        st.rate < (wf.framerate : ℤ)) ∧
      (st.channels < wf.nchannels ∨ st.rate < (wf.framerate : ℤ))) :=
  ⟨c4_header_ignores_negotiation (initState "recordings") _
      ⟨0, 1, (44100 : ℚ)⟩ [[0, 1]] 0 rfl rfl rfl (by decide) (by norm_num)
      (Or.inl (by decide)),
   c4_header_ignores_negotiation (initState "recordings") _
      ⟨0, 2, (22050 : ℚ)⟩ [[0, 1]] 0 rfl rfl rfl (by decide) (by norm_num)
      (Or.inr (by norm_num [initState]))⟩

/-! ## Claims about the meet bot -/

/-- C5: the status classifier gives strict precedence to structural in-call
indicators: any visible indicator yields "joined" regardless of page text;
only with no visible indicator do the waiting phrases, then the ended
phrases, then "unknown" apply. -/
theorem c5_status_precedence (p : Page) :
    (meeting_indicators.any (indicator_visible p) = true →
        check_meeting_status p = "joined") ∧
    (meeting_indicators.any (indicator_visible p) = false →
      ((waiting_phrases.any
          (fun ph => strIn ph (lowerStr p.page_source)) = true →
          check_meeting_status p = "waiting") ∧
       (waiting_phrases.any
          (fun ph => strIn ph (lowerStr p.page_source)) = false →
          ended_phrases.any
            (fun ph => strIn ph (lowerStr p.page_source)) = true →
          check_meeting_status p = "ended") ∧
       (waiting_phrases.any
          (fun ph => strIn ph (lowerStr p.page_source)) = false →
          ended_phrases.any
            (fun ph => strIn ph (lowerStr p.page_source)) = false →
          check_meeting_status p = "unknown"))) := by
  constructor
  · intro h
    simp [check_meeting_status, h]
  · intro h
    refine ⟨fun hw => ?_, fun hw he => ?_, fun hw he => ?_⟩
    · simp [check_meeting_status, h, hw]
    · simp [check_meeting_status, h, hw, he]
    · simp [check_meeting_status, h, hw, he]

/-- A page showing both a visible leave-call button (structural joined
indicator) and a waiting phrase in its content. -/
def pageJoinedWaiting : Page :=
  { elems := fun sel =>
      match sel with
      | .meetLeaveCall =>
          [{ displayed := true, enabled := true, aria_label := "Leave call",
             click_ok := true, script_ok := true }]
      | _ => []
    page_source := "Waiting for the host to let you in" }

/-- Witness for C5: content containing both a structural joined indicator and
a waiting phrase classifies as "joined". -/
theorem c5_status_precedence_witness :
    check_meeting_status pageJoinedWaiting = "joined" ∧
    waiting_phrases.any
      (fun ph => strIn ph (lowerStr pageJoinedWaiting.page_source)) = true :=
  ⟨(c5_status_precedence pageJoinedWaiting).1 (by decide), by decide⟩

/-- C6: for a healthy driver, the disconnection detector is exactly the
stateless OR of the two signals: the URL no longer contains the Meet domain,
or the lowercased content contains a disconnect phrase. -/
theorem c6_disconnect_iff (d : Driver) (url src : String)
    (hu : d.current_url = .ok url) (hs : d.page_source = .ok src) :
    detect_disconnection d = true ↔
      (strIn "meet.google.com" url = false ∨
       disconnect_phrases.any (fun ph => strIn ph (lowerStr src)) = true) := by
  simp only [detect_disconnection, hu, hs]
  cases h : strIn "meet.google.com" url with
  | false => simp [h]
  | true => simp [h]

/-- Witness for C6: "you left the meeting" in the content while the URL is
still on the Meet domain yields true. -/
theorem c6_disconnect_iff_witness :
    detect_disconnection
      ⟨.ok "https://meet.google.com/abc-defg-hij",
       .ok "You left the meeting"⟩ = true :=
  (c6_disconnect_iff
      ⟨.ok "https://meet.google.com/abc-defg-hij",
       .ok "You left the meeting"⟩ _ _ rfl rfl).mpr
    (Or.inr (by decide))

/-- The variant loop always reports success. -/
theorem try_vars_loop_result (outcomes : List (Except Unit String)) :
    (try_vars_loop outcomes).result = true := by
  induction outcomes with
  | nil => rfl
  | cons o rest ih =>
    cases o with
    | error e => simpa [try_vars_loop] using ih
    | ok src =>
      by_cases h : has_restriction src = true
      · simp [try_vars_loop, h, ih]
      · simp [try_vars_loop, h]

/-- When every variant errors or shows a restriction, the loop exhausts all
of them and emits the degraded-mode warning, still reporting success. -/
theorem try_vars_loop_all_bad (outcomes : List (Except Unit String))
    (h : ∀ o ∈ outcomes, bad_outcome o = true) :
    try_vars_loop outcomes = ⟨true, outcomes.length, true⟩ := by
  induction outcomes with
  | nil => rfl
  | cons o rest ih =>
    have ho : bad_outcome o = true := h o (by simp)
    have ih' := ih (fun x hx => h x (by simp [hx]))
    cases o with
    | error e => simp [try_vars_loop, ih']
    | ok src =>
      have hr : has_restriction src = true := by simpa [bad_outcome] using ho
      simp [try_vars_loop, hr, ih']

/-- The loop stops at the first clean variant: after a run of bad variants,
a clean page is accepted immediately with no degraded-mode warning. -/
theorem try_vars_loop_first_clean :
    ∀ (pre : List (Except Unit String)) (src : String)
      (suf : List (Except Unit String)),
      (∀ o ∈ pre, bad_outcome o = true) → has_restriction src = false →
      try_vars_loop (pre ++ .ok src :: suf) =
        ⟨true, pre.length + 1, false⟩ := by
  intro pre
  induction pre with
  | nil =>
    intro src suf _ hclean
    simp [try_vars_loop, hclean]
  | cons o rest ih =>
    intro src suf hpre hclean
    have ho := hpre o (by simp)
    have ih' := ih src suf (fun x hx => hpre x (by simp [hx])) hclean
    cases o with
    | error e => simp [try_vars_loop, ih']
    | ok s2 =>
      have hr : has_restriction s2 = true := by simpa [bad_outcome] using ho
      simp [try_vars_loop, hr, ih']

/-- C7: the URL-variant join workflow is fail-open — it returns success for
every sequence of navigation outcomes; it stops at the first variant without
a restriction match; and when every variant errors or matches a restriction
it exhausts the list, logs the degraded-mode warning, and still reports
success. -/
theorem c7_fail_open :
    (∀ (nav : String → Except Unit String) (link : String),
        (try_meeting_url_variations nav link).result = true) ∧
    (∀ outcomes : List (Except Unit String),
        (∀ o ∈ outcomes, bad_outcome o = true) →
        try_vars_loop outcomes = ⟨true, outcomes.length, true⟩) ∧
    (∀ (pre : List (Except Unit String)) (src : String)
        (suf : List (Except Unit String)),
        (∀ o ∈ pre, bad_outcome o = true) → has_restriction src = false →
        try_vars_loop (pre ++ .ok src :: suf) =
          ⟨true, pre.length + 1, false⟩) :=
  ⟨fun _ _ => try_vars_loop_result _, try_vars_loop_all_bad,
   try_vars_loop_first_clean⟩

/-- Witness for C7: every navigation failing still yields success, and a
restricted first variant followed by a clean one stops after two tries. -/
theorem c7_fail_open_witness :
    (try_meeting_url_variations (fun _ => .error ())
        "https://meet.google.com/abc-defg-hij").result = true ∧
    try_vars_loop
        [.ok "Contact your System Administrator", .ok "meeting lobby",
         .error ()] = ⟨true, 2, false⟩ :=
  ⟨c7_fail_open.1 (fun _ => .error ()) "https://meet.google.com/abc-defg-hij",
   c7_fail_open.2.2 [.ok "Contact your System Administrator"] "meeting lobby"
     [.error ()] (by decide) (by decide)⟩

/-- C10: any exception while evaluating either disconnection signal makes
the detector return true, and the monitoring loop then stops an active
recording with reason "Disconnection detected" and terminates. -/
theorem c10_detector_error_means_disconnect (d : Driver) (status : String)
    (h : d.current_url = .error () ∨ d.page_source = .error ()) :
    detect_disconnection d = true ∧
    stay_step (detect_disconnection d) status true true =
      ⟨some "Disconnection detected", true, false⟩ := by
  have hd : detect_disconnection d = true := by
    rcases h with h | h
    · simp [detect_disconnection, h]
    · cases hu : d.current_url with
      | error e => simp [detect_disconnection, hu]
      | ok url =>
        cases hst : strIn "meet.google.com" url with
        | false => simp [detect_disconnection, hu, hst]
        | true => simp [detect_disconnection, hu, hst, h]
  refine ⟨hd, ?_⟩
  rw [hd]
  rfl

/-- Witness for C10: a driver whose URL read raises. -/
theorem c10_detector_error_means_disconnect_witness :
    detect_disconnection ⟨.error (), .ok ""⟩ = true ∧
    stay_step (detect_disconnection ⟨.error (), .ok ""⟩) "unknown" true true =
      ⟨some "Disconnection detected", true, false⟩ :=
  c10_detector_error_means_disconnect ⟨.error (), .ok ""⟩ "unknown" (Or.inl rfl)

/-- The toggle loop under rounds that never find an actionable element:
it runs down its fuel, incrementing the attempt counter and logging exactly
one info line per attempt, and returns with `toggled` still false. -/
theorem toggle_go_no_round (selectors : List Sel) (device desired : String)
    (pages : Nat → Page)
    (h : ∀ n, round_toggles selectors device desired (pages n) = false) :
    ∀ (fuel attempts : Nat) (log : List LogEntry),
      toggle_go selectors device desired pages fuel attempts log =
        ⟨attempts + fuel, false,
         log ++ List.replicate fuel
           ⟨LogLevel.info, device ++ " toggle attempt"⟩⟩ := by
  intro fuel
  induction fuel with
  | zero =>
    intro attempts log
    simp [toggle_go]
  | succ n ih =>
    intro attempts log
    rw [toggle_go, if_neg (by simp [h attempts]), ih]
    simp only [ToggleResult.mk.injEq, List.replicate_succ, List.append_assoc,
      List.cons_append, List.nil_append]
    exact ⟨by omega, trivial, trivial⟩

/-- `stop_recording` never modifies the stored filename. -/
theorem stop_recording_filename (s : RecorderState) (now : ℚ) :
    (stop_recording s now).2.2.recording_filename = s.recording_filename := by
  by_cases hr : s.is_recording = false
  · simp [stop_recording, hr]
  · by_cases hf : s.frames.isEmpty <;> simp [stop_recording, hr, hf]

/-- Two datetimes within the same wall-clock second: distinct instants
(they differ in the microsecond field). -/
def tsSameSecondA : PyDateTime := ⟨2026, 10, 12, 9, 30, 0, 0⟩

/-- The second instant, half a second later. -/
def tsSameSecondB : PyDateTime := ⟨2026, 10, 12, 9, 30, 0, 500000⟩

/-- Counterexample to C8 as stated: two distinct session start timestamps
falling inside the same wall-clock second are assigned the same recording
filename — the second-granularity `strftime("%Y%m%d_%H%M%S")` pattern
collides, so a later session can reuse an earlier session's filename. -/
theorem c8_counterexample_same_second_collision :
    tsSameSecondA ≠ tsSameSecondB ∧
    get_recording_filename "recordings" tsSameSecondA =
      get_recording_filename "recordings" tsSameSecondB := by
  refine ⟨by decide, ?_⟩
  decide

/-- `Nat.digitChar` is injective on single digits. -/
theorem digitChar_inj :
    ∀ a, a < 10 → ∀ b, b < 10 →
      Nat.digitChar a = Nat.digitChar b → a = b := by
  decide

/-- The formatted timestamp determines every calendar field down to the
second (within datetime validity ranges). -/
theorem strftime_ts_inj (t1 t2 : PyDateTime) (h1 : validTs t1)
    (h2 : validTs t2) (h : strftime_ts t1 = strftime_ts t2) :
    secondKey t1 = secondKey t2 := by
  obtain ⟨ha1, ha2, ha3, ha4, ha5, ha6, ha7, ha8, ha9⟩ := h1
  obtain ⟨hb1, hb2, hb3, hb4, hb5, hb6, hb7, hb8, hb9⟩ := h2
  have hdata : ts_chars t1 = ts_chars t2 := congrArg String.data h
  simp only [ts_chars, List.cons.injEq, and_true] at hdata
  obtain ⟨e1, e2, e3, e4, e5, e6, e7, e8, -, e9, e10, e11, e12, e13, e14⟩ :=
    hdata
  have ten : (0 : Nat) < 10 := by norm_num
  have d1 := digitChar_inj _ (Nat.mod_lt _ ten) _ (Nat.mod_lt _ ten) e1
  have d2 := digitChar_inj _ (Nat.mod_lt _ ten) _ (Nat.mod_lt _ ten) e2
  have d3 := digitChar_inj _ (Nat.mod_lt _ ten) _ (Nat.mod_lt _ ten) e3
  have d4 := digitChar_inj _ (Nat.mod_lt _ ten) _ (Nat.mod_lt _ ten) e4
  have d5 := digitChar_inj _ (Nat.mod_lt _ ten) _ (Nat.mod_lt _ ten) e5
  have d6 := digitChar_inj _ (Nat.mod_lt _ ten) _ (Nat.mod_lt _ ten) e6
  have d7 := digitChar_inj _ (Nat.mod_lt _ ten) _ (Nat.mod_lt _ ten) e7
  have d8 := digitChar_inj _ (Nat.mod_lt _ ten) _ (Nat.mod_lt _ ten) e8
  have d9 := digitChar_inj _ (Nat.mod_lt _ ten) _ (Nat.mod_lt _ ten) e9
  have d10 := digitChar_inj _ (Nat.mod_lt _ ten) _ (Nat.mod_lt _ ten) e10
  have d11 := digitChar_inj _ (Nat.mod_lt _ ten) _ (Nat.mod_lt _ ten) e11
  have d12 := digitChar_inj _ (Nat.mod_lt _ ten) _ (Nat.mod_lt _ ten) e12
  have d13 := digitChar_inj _ (Nat.mod_lt _ ten) _ (Nat.mod_lt _ ten) e13
  have d14 := digitChar_inj _ (Nat.mod_lt _ ten) _ (Nat.mod_lt _ ten) e14
  simp only [secondKey, Prod.mk.injEq]
  refine ⟨?_, ?_, ?_, ?_, ?_, ?_⟩ <;> omega

/-- C8 (amended): a recording session's filename is assigned once, at start,
and never modified by the capture loop or by stop; filenames of two sessions
are distinct whenever their start timestamps differ at second granularity —
only same-second starts (the counterexample) collide. -/
theorem c8_filename_assignment (folder : String) (t1 t2 : PyDateTime)
    (h1 : validTs t1) (h2 : validTs t2)
    (hne : secondKey t1 ≠ secondKey t2) :
    get_recording_filename folder t1 ≠ get_recording_filename folder t2 ∧
    (∀ (s : RecorderState) (reads : List (Except Unit (List Nat))),
        (record_audio s reads).recording_filename = s.recording_filename) ∧
    (∀ (s : RecorderState) (now : ℚ),
        (stop_recording s now).2.2.recording_filename
          = s.recording_filename) := by
  refine ⟨?_, fun s reads => (record_audio_preserves reads s).2.1,
    stop_recording_filename⟩
  intro h
  apply hne
  apply strftime_ts_inj t1 t2 h1 h2
  have hd := congrArg String.data h
  simp only [get_recording_filename, String.data_append,
    List.append_assoc] at hd
  have h3 := List.append_cancel_left hd
  have h4 := List.append_cancel_left h3
  have h5 := List.append_cancel_left h4
  have h6 := List.append_cancel_right h5
  exact congrArg String.mk h6

/-- Witness for the amended C8: two starts one second apart get distinct
filenames. -/
theorem c8_filename_assignment_witness :
    get_recording_filename "recordings" ⟨2026, 10, 12, 9, 30, 0, 0⟩ ≠
      get_recording_filename "recordings" ⟨2026, 10, 12, 9, 30, 1, 0⟩ ∧
    (∀ (s : RecorderState) (reads : List (Except Unit (List Nat))),
        (record_audio s reads).recording_filename = s.recording_filename) ∧
    (∀ (s : RecorderState) (now : ℚ),
        (stop_recording s now).2.2.recording_filename
          = s.recording_filename) :=
  c8_filename_assignment "recordings" ⟨2026, 10, 12, 9, 30, 0, 0⟩
    ⟨2026, 10, 12, 9, 30, 1, 0⟩ (by decide) (by decide) (by decide)

/-- C9 (amended): when no round of the media-enforcement pass finds an
actionable element, the toggle helper performs exactly its 5 bounded rounds
and returns normally with the toggle unachieved, having logged only the
per-attempt info lines — no warning is emitted on exhaustion, and nothing is
raised (every exception inside the loop is caught per selector). -/
theorem c9_enforcement_exhaustion (pages : Nat → Page)
    (h : ∀ n, round_toggles mic_selectors "microphone" "off" (pages n) = false) :
    (toggle_media_button mic_selectors "microphone" "off" pages).attempts = 5 ∧
    (toggle_media_button mic_selectors "microphone" "off" pages).toggled
      = false ∧
    ∀ e ∈ (toggle_media_button mic_selectors "microphone" "off" pages).log,
      e.level = LogLevel.info := by
  rw [toggle_media_button, toggle_go_no_round _ _ _ _ h 5 0 []]
  refine ⟨rfl, rfl, ?_⟩
  intro e he
  simp only [List.nil_append, List.mem_replicate] at he
  rw [he.2]

/-- A page with no elements at all: no selector resolves to anything. -/
def emptyPage : Page := { elems := fun _ => [], page_source := "" }

/-- Witness for the amended C9 on the element-free page. -/
theorem c9_enforcement_exhaustion_witness :
    (toggle_media_button mic_selectors "microphone" "off"
        (fun _ => emptyPage)).attempts = 5 ∧
    (toggle_media_button mic_selectors "microphone" "off"
        (fun _ => emptyPage)).toggled = false ∧
    ∀ e ∈ (toggle_media_button mic_selectors "microphone" "off"
        (fun _ => emptyPage)).log,
      e.level = LogLevel.info :=
  c9_enforcement_exhaustion (fun _ => emptyPage) (fun _ => rfl)

/-- Counterexample to C9 as stated: on the element-free page no round finds
an actionable element and both device toggles exhaust their 5 rounds and
return normally, but the full enforcement pass (toggle attempts plus the
verification pass) logs no warning at all — the claimed warning is never
emitted. -/
theorem c9_counterexample_no_warning :
    round_toggles mic_selectors "microphone" "off" emptyPage = false ∧
    round_toggles cam_selectors "camera" "off" emptyPage = false ∧
    (ensure_muted_and_camera_off (fun _ => emptyPage)).mic.attempts = 5 ∧
    (ensure_muted_and_camera_off (fun _ => emptyPage)).cam.attempts = 5 ∧
    (ensure_muted_and_camera_off (fun _ => emptyPage)).mic.toggled = false ∧
    (ensure_muted_and_camera_off (fun _ => emptyPage)).cam.toggled = false ∧
    (ensure_muted_and_camera_off (fun _ => emptyPage)).log.all
      (fun e => !(e.level == LogLevel.warning)) = true := by
  decide
